import Mathlib

/-!
Shallow embedding of the EventHub account-security core: the payment-form
field validators of src/validation.py, the checkout caller fragment of
src/app.py, and the lockout / login-input interfaces that src/app.py imports
from the validation module.

Python strings are modelled by Lean `String` (a list of Unicode code points),
Python dicts by insertion-ordered association lists with distinct keys, and a
Python function that can raise by `Except String`, the error string naming the
exception class.  Library character predicates (str.isalpha, str.isdigit,
whitespace stripping, int parsing) are modelled on their ASCII fragment.
-/

namespace EventHub

/-- A character of the default str.strip whitespace set (ASCII fragment). -/
def pySpace (c : Char) : Bool := c.isWhitespace

/-- Python str.strip: drop leading and trailing whitespace characters. -/
def listStrip (l : List Char) : List Char :=
  List.rdropWhile pySpace (l.dropWhile pySpace)

/-- str.strip lifted to strings. -/
def pyStrip (s : String) : String := ⟨listStrip s.data⟩

/-- unicodedata.normalize NFKC, modelled as the identity map: NFKC is
idempotent and is the identity on every ASCII code point, which is the
fragment the claims exercise. -/
def nfkc (s : String) : String := s

/-- normalize_basic (src/validation.py lines 39-43): NFKC normalization of
`value or ""` (the identity on strings) followed by strip. -/
def normalize_basic (value : String) : String := pyStrip (nfkc value)

/-- Python str.split with a one-character separator: "".split(sep) is [""],
separators at the ends produce empty pieces. -/
def listSplit (sep : Char) : List Char → List (List Char)
  | [] => [[]]
  | c :: rest =>
    if c = sep then [] :: listSplit sep rest
    else
      match listSplit sep rest with
      | [] => [[c]]
      | h :: t => (c :: h) :: t

/-- str.split lifted to strings. -/
def pySplit (s : String) (sep : Char) : List String :=
  (listSplit sep s.data).map (fun l => ⟨l⟩)

/-- Value of an ASCII digit run. -/
def digitsVal (l : List Char) : Nat :=
  l.foldl (fun n c => 10 * n + (c.toNat - 48)) 0

/-- Python int(s) on the ASCII fragment: strip whitespace, optional sign,
then a nonempty digit run; `none` models a raised ValueError. -/
def pyInt (s : String) : Option Int :=
  let l := listStrip s.data
  match l with
  | '+' :: rest =>
    if rest ≠ [] ∧ rest.all Char.isDigit then some ((digitsVal rest : Nat) : Int) else none
  | '-' :: rest =>
    if rest ≠ [] ∧ rest.all Char.isDigit then some (-((digitsVal rest : Nat) : Int)) else none
  | _ => if l ≠ [] ∧ l.all Char.isDigit then some ((digitsVal l : Nat) : Int) else none

/-- validate_card_number (src/validation.py lines 67-75).  Line 70 calls
replace on spaces and hyphens but discards the result, so nothing is removed;
the digits-only check only tests isalpha; the length test uses `<= 13 or
>= 19`, so lengths 13 and 19 are rejected; luhn_is_valid is never called. -/
def validate_card_number (card_number : String) : String × String :=
  let c := normalize_basic card_number
  if c.data.any Char.isAlpha then ("", "Card number must contain digits only")
  else if c.data.length ≤ 13 ∨ 19 ≤ c.data.length then
    ("", "card number length must be between 13 and 19")
  else (c, "")

/-- validate_exp_date (src/validation.py lines 101-113).  After the format and
month checks the code evaluates `date.today().year[:2]`, which subscripts an
int and raises TypeError on every input that reaches it; int() on a
non-numeric part raises ValueError.  The month test is the Python chained
comparison `1 < int(m) > 12`; the success line `return ("exp_date", "")` is
unreachable. -/
def validate_exp_date (exp_date : String) : Except String (String × String) :=
  let e := normalize_basic exp_date
  match pySplit e '/' with
  | [m, y] =>
    if m.data.any Char.isAlpha ∨ y.data.any Char.isAlpha then
      Except.ok ("", "format must be MM/YY")
    else
      match pyInt m with
      | none => Except.error "ValueError"
      | some mv =>
        if 1 < mv ∧ 12 < mv then Except.ok ("", "Month must be beween 01 and 12")
        else Except.error "TypeError"
  | _ => Except.ok ("", "format must be MM/YY")

/-- validate_cvv (src/validation.py lines 134-140): no normalization, the
digits-only check only tests isalpha, and the clean value is always empty. -/
def validate_cvv (cvv : String) : String × String :=
  if cvv.data.any Char.isAlpha then ("", "Must contain only digits")
  else if cvv.data.length < 3 ∨ 4 < cvv.data.length then ("", "Must be 3 or 4 digits")
  else ("", "")

/-- validate_billing_email (src/validation.py lines 160-172).  Line 162 calls
lower() but discards the result, so the clean value keeps its case; the
domain must split on the dot into exactly two pieces. -/
def validate_billing_email (billing_email : String) : String × String :=
  let e := normalize_basic billing_email
  if 254 < e.data.length then ("", "Maximum length is 254")
  else
    match pySplit e '@' with
    | [lo, dom] =>
      if lo = "" ∨ dom = "" then
        ("", "email must follow the following format juan@prueba.com")
      else if (pySplit dom '.').length ≠ 2 then
        ("", "email must follow the following format juan@prueba.com")
      else (e, "")
    | _ => ("", "email must follow the following format juan@prueba.com")

/-- validate_name_on_card (src/validation.py lines 191-200).  The character
test is `any`, not `all`; line 198 calls replace but discards the result.
Char.ofNat 39 is the apostrophe character. -/
def validate_name_on_card (name_on_card : String) : String × String :=
  let n := normalize_basic name_on_card
  if n.data.length < 2 ∨ 60 < n.data.length then
    ("", "Length must be between 2 and 60")
  else if ¬ n.data.any (fun c => c.isAlpha || c == '-' || c == Char.ofNat 39 || c == ' ') then
    ("", "Only letters (including accents), spaces, apostrophes, hyphens")
  else (n, "")

/-- Python dict lookup over the insertion-ordered association list (all keys
built by this module are distinct). -/
def lookupStr (k : String) : List (String × String) → Option String
  | [] => none
  | (k2, v) :: rest => if k = k2 then some v else lookupStr k rest

/-- validate_payment_form (src/validation.py lines 225-267): the five field
validators run in source order with no short-circuit on errors, but an
exception raised by validate_exp_date propagates and aborts the remaining
validators.  The clean dict always receives the keys card, exp_date,
name_on_card and billing_email; the cvv clean value is dropped. -/
def validate_payment_form (card_number exp_date cvv name_on_card billing_email : String) :
    Except String (List (String × String) × List (String × String)) :=
  let cardR := validate_card_number card_number
  match validate_exp_date exp_date with
  | Except.error e => Except.error e
  | Except.ok expR =>
    let cvvR := validate_cvv cvv
    let nameR := validate_name_on_card name_on_card
    let emailR := validate_billing_email billing_email
    Except.ok
      ( [("card", cardR.1), ("exp_date", expR.1), ("name_on_card", nameR.1),
         ("billing_email", emailR.1)],
        (if cardR.2 ≠ "" then [("card_number", cardR.2)] else [])
          ++ (if expR.2 ≠ "" then [("exp_date", expR.2)] else [])
          ++ (if cvvR.2 ≠ "" then [("cvv", cvvR.2)] else [])
          ++ (if nameR.2 ≠ "" then [("name_on_card", nameR.2)] else [])
          ++ (if emailR.2 ≠ "" then [("billing_email", emailR.2)] else []) )

/-- The masked card display computed by the checkout handler
(src/app.py lines 444-446): it reads clean.get with key card_number, takes
the last four characters when nonempty, and prefixes the mask. -/
def checkout_masked_display (clean : List (String × String)) : String :=
  let cn := (lookupStr "card_number" clean).getD ""
  let last4 := if cn ≠ "" then (⟨cn.data.drop (cn.data.length - 4)⟩ : String) else ""
  if last4 ≠ "" then "**** **** **** " ++ last4 else ""

/-- Modelled from the spec: the Luhn checksum of section 4.2 — reverse the
digit string, double each digit at odd 0-based index after reversal,
subtracting 9 when the doubled value exceeds 9, sum everything, and test the
sum modulo 10.  The source declares luhn_is_valid (src/validation.py lines
46-60) but leaves its body an unimplemented stub that is never called. -/
def luhn_spec (digits : List Char) : Bool :=
  (digits.reverse.enum.foldl
    (fun acc p =>
      let d := p.2.toNat - 48
      acc + (if p.1 % 2 = 1 then (if 9 < 2 * d then 2 * d - 9 else 2 * d) else d))
    0) % 10 == 0

/-- Modelled from the spec: the LockoutRecord of section 3 — a failed-attempt
counter and a lock-expiry epoch timestamp, zero meaning not locked.  The
lockout tracker is imported by src/app.py from the validation module but its
definition is missing from src. -/
structure LockoutRecord where
  attempts : Nat
  lockedUntil : Int

/-- Lookup in the lockout tracker state, keyed by normalized identifier. -/
def alookup (k : String) : List (String × LockoutRecord) → Option LockoutRecord
  | [] => none
  | (k2, v) :: rest => if k = k2 then some v else alookup k rest

/-- Insert-or-replace in the lockout tracker state. -/
def aset (k : String) (r : LockoutRecord) :
    List (String × LockoutRecord) → List (String × LockoutRecord)
  | [] => [(k, r)]
  | (k2, v) :: rest => if k2 = k then (k, r) :: rest else (k2, v) :: aset k r rest

/-- Modelled from the spec: register_failed_attempt (section 4.1), missing
from src — increment the identifier record attempts counter, creating the
record at 0 if absent, and once the counter reaches MAX_ATTEMPTS = 3 set
lockedUntil to now + 300 and reset the counter to 0. -/
def register_failed_attempt (now : Int) (identifier : String)
    (st : List (String × LockoutRecord)) : List (String × LockoutRecord) :=
  let r0 := (alookup identifier st).getD ⟨0, 0⟩
  let a := r0.attempts + 1
  if 3 ≤ a then aset identifier ⟨0, now + 300⟩ st
  else aset identifier ⟨a, r0.lockedUntil⟩ st

/-- Modelled from the spec: is_account_locked / isLocked (section 4.1),
missing from src — locked iff a record exists and lockedUntil is in the
future, with secondsRemaining = max 0 (lockedUntil - now). -/
def is_account_locked (now : Int) (identifier : String)
    (st : List (String × LockoutRecord)) : Bool × Int :=
  match alookup identifier st with
  | none => (false, 0)
  | some r => (decide (now < r.lockedUntil), max 0 (r.lockedUntil - now))

/-- Modelled from the spec: the structural email shape checked by
validate_login_input (sections 4.2 and 4.3) — length at most 254 and
local@domain.tld shape with nonempty local part, nonempty domain and a dot
in the domain. -/
def login_email_shape_ok (e : String) : Bool :=
  decide (e.data.length ≤ 254) &&
    match pySplit e '@' with
    | [lo, dom] => lo != "" && dom != "" && dom.data.contains '.'
    | _ => false

/-- Python str.lower on the ASCII fragment, mapped over the code points. -/
def pyLower (s : String) : String := ⟨s.data.map Char.toLower⟩

/-- Modelled from the spec: validate_login_input (section 4.3), missing from
src — validates the structural shape of the normalized (trimmed, lowercased)
email and non-emptiness of the password, and on any problem returns the
single generic credentials error instead of field-specific errors. -/
def validate_login_input (email password : String) :
    List (String × String) × List (String × String) :=
  let e := pyLower (pyStrip email)
  if login_email_shape_ok e && password != "" then ([("email", e)], [])
  else ([], [("credentials", "Invalid credentials")])

/-! ## Helper lemmas -/

/-- If dropping a while-prefix from `r ++ t` removes nothing, then dropping
it from `r` alone removes nothing either. -/
theorem dropWhile_eq_self_append (p : Char → Bool) (r t : List Char)
    (h : (r ++ t).dropWhile p = r ++ t) : r.dropWhile p = r := by
  cases r with
  | nil => rfl
  | cons a r2 =>
    by_cases hpa : p a
    · exfalso
      rw [List.cons_append, List.dropWhile_cons, if_pos hpa] at h
      have h3 := (List.dropWhile_sublist (l := r2 ++ t) p).length_le
      have h4 := congrArg List.length h
      simp only [List.length_append, List.length_cons] at h3 h4
      omega
    · rw [List.dropWhile_cons, if_neg hpa]

/-- Stripping is idempotent. -/
theorem listStrip_idem (l : List Char) : listStrip (listStrip l) = listStrip l := by
  unfold listStrip
  obtain ⟨t, ht⟩ := List.rdropWhile_prefix pySpace (l.dropWhile pySpace)
  have h1 : (List.rdropWhile pySpace (l.dropWhile pySpace)).dropWhile pySpace
      = List.rdropWhile pySpace (l.dropWhile pySpace) := by
    apply dropWhile_eq_self_append pySpace _ t
    rw [ht]
    exact List.dropWhile_idempotent pySpace l
  rw [h1, List.rdropWhile_idempotent]

/-- normalize_basic is idempotent (NFKC and strip are). -/
theorem normalize_basic_idem (s : String) :
    normalize_basic (normalize_basic s) = normalize_basic s := by
  unfold normalize_basic nfkc pyStrip
  exact congrArg String.mk (listStrip_idem s.data)

/-- Lookup after insert-or-replace at the same key. -/
theorem alookup_aset_self (k : String) (r : LockoutRecord)
    (st : List (String × LockoutRecord)) : alookup k (aset k r st) = some r := by
  induction st with
  | nil => simp [aset, alookup]
  | cons p rest ih =>
    obtain ⟨k2, v⟩ := p
    by_cases h : k2 = k
    · simp [aset, alookup, h]
    · simp only [aset, if_neg h]
      rw [alookup, if_neg (fun hk => h hk.symm)]
      exact ih

/-! ## Claim theorems -/

/-- C1: registerFailedAttempt increments the attempts counter (creating the
record at 0 if absent) and, when the counter reaches 3, locks the identifier
until now + 300 and resets the counter; consequently, after exactly three
consecutive failed attempts with no intervening success, is_account_locked
queried while the lock is active reports locked with secondsRemaining in
(0, 300]. -/
theorem C1_locked_after_three_failures
    (id : String) (st : List (String × LockoutRecord)) (t1 t2 t3 now : Int)
    (habsent : alookup id st = none) (h1 : t3 ≤ now) (h2 : now < t3 + 300) :
    is_account_locked now id
        (register_failed_attempt t3 id
          (register_failed_attempt t2 id
            (register_failed_attempt t1 id st)))
      = (true, t3 + 300 - now)
    ∧ 0 < t3 + 300 - now ∧ t3 + 300 - now ≤ 300 := by
  have e1 : register_failed_attempt t1 id st = aset id ⟨1, 0⟩ st := by
    simp [register_failed_attempt, habsent]
  have e2 : register_failed_attempt t2 id (aset id ⟨1, 0⟩ st)
      = aset id ⟨2, 0⟩ (aset id ⟨1, 0⟩ st) := by
    simp [register_failed_attempt, alookup_aset_self]
  have e3 : register_failed_attempt t3 id (aset id ⟨2, 0⟩ (aset id ⟨1, 0⟩ st))
      = aset id ⟨0, t3 + 300⟩ (aset id ⟨2, 0⟩ (aset id ⟨1, 0⟩ st)) := by
    simp [register_failed_attempt, alookup_aset_self]
  refine ⟨?_, by omega, by omega⟩
  rw [e1, e2, e3]
  unfold is_account_locked
  rw [alookup_aset_self]
  show (decide (now < t3 + 300), max 0 (t3 + 300 - now)) = (true, t3 + 300 - now)
  rw [decide_eq_true h2, max_eq_right (by omega : (0:Int) ≤ t3 + 300 - now)]

/-- C1 witness: three failures on a fresh identifier, queried at the moment
of the third failure, give locked with 300 seconds remaining. -/
theorem C1_locked_after_three_failures_witness :
    is_account_locked 1000 "user@example.com"
        (register_failed_attempt 1000 "user@example.com"
          (register_failed_attempt 900 "user@example.com"
            (register_failed_attempt 800 "user@example.com" [])))
      = (true, 1000 + 300 - 1000)
    ∧ (0:Int) < 1000 + 300 - 1000 ∧ (1000:Int) + 300 - 1000 ≤ 300 :=
  C1_locked_after_three_failures "user@example.com" [] 800 900 1000 1000 rfl
    (by omega) (by omega)

/-- C2: refuted as stated — the spec says every field validator and
validate_payment_form return a normal (clean, error) result on every input,
but validate_exp_date raises TypeError on every well-formed expiry (the code
subscripts the int date.today().year with [:2]), and the exception
propagates out of validate_payment_form. -/
theorem C2_payment_form_raises :
    validate_payment_form "4111111111111111" "06/25" "123" "John Doe" "a@b.com"
      = Except.error "TypeError" := by rfl

/-- C4: refuted as stated — the Luhn checksum is never checked (luhn_is_valid
is an unimplemented stub), so the Luhn-invalid 4111111111111112 is accepted
exactly like the Luhn-valid 4111111111111111; moreover the length test
rejects the Luhn-valid 13-digit number 4222222222222 although the claim
allows lengths 13 through 19. -/
theorem C4_luhn_never_checked :
    validate_card_number "4111111111111112" = ("4111111111111112", "")
    ∧ luhn_spec ("4111111111111112".data) = false
    ∧ validate_card_number "4111111111111111" = ("4111111111111111", "")
    ∧ luhn_spec ("4111111111111111".data) = true
    ∧ validate_card_number "4222222222222"
        = ("", "card number length must be between 13 and 19")
    ∧ luhn_spec ("4222222222222".data) = true := by
  refine ⟨rfl, by decide, rfl, by decide, rfl, by decide⟩

/-- C5: refuted as stated — with the claim fixing the current month/year at
2025-06, "06/25" should be valid, "05/25" expired and "06/41" too far in the
future; the code instead raises TypeError on all three (it subscripts the
int date.today().year), and classifies "13/25" as a month error. -/
theorem C5_expiry_always_raises :
    validate_exp_date "06/25" = Except.error "TypeError"
    ∧ validate_exp_date "05/25" = Except.error "TypeError"
    ∧ validate_exp_date "06/41" = Except.error "TypeError"
    ∧ validate_exp_date "13/25" = Except.ok ("", "Month must be beween 01 and 12") := by
  refine ⟨rfl, rfl, rfl, rfl⟩

/-- C6: refuted as stated — on a call where both the card-number validator
and the billing-email validator report errors, validate_payment_form is
claimed to return both error keys, but with a well-formed expiry the
TypeError raised inside validate_exp_date aborts the form before the CVV,
name and email validators run, and no errors mapping is returned at all. -/
theorem C6_aggregation_aborted_by_exception :
    (validate_card_number "x").2 = "Card number must contain digits only"
    ∧ (validate_billing_email "bad").2
        = "email must follow the following format juan@prueba.com"
    ∧ validate_payment_form "x" "06/25" "12" "J" "bad" = Except.error "TypeError" := by
  refine ⟨rfl, rfl, rfl⟩

/-- C8: refuted as stated — the clean value keeps its case because line 162
discards the result of lower(), and a domain with two dots is rejected
although the claim requires only that the domain contain a dot. -/
theorem C8_email_not_lowercased :
    validate_billing_email "A@B.com" = ("A@B.com", "")
    ∧ validate_billing_email "a@b.c.d"
        = ("", "email must follow the following format juan@prueba.com") := by
  refine ⟨rfl, rfl⟩

/-- C3: for every email and password pair with a structural problem (the
normalized email is malformed or the password is empty), validate_login_input
returns an errors mapping whose only key is credentials with the generic
message, never field-specific keys. -/
theorem C3_generic_login_error (email password : String)
    (h : login_email_shape_ok (pyLower (pyStrip email)) = false ∨ password = "") :
    (validate_login_input email password).2 = [("credentials", "Invalid credentials")] := by
  unfold validate_login_input
  rcases h with h | h
  · simp [h]
  · simp [h]

/-- C3 witness: validate_login_input applied to "not-an-email" and the empty
password returns exactly the single credentials error key. -/
theorem C3_generic_login_error_witness :
    (validate_login_input "not-an-email" "").2 = [("credentials", "Invalid credentials")] :=
  C3_generic_login_error "not-an-email" "" (Or.inr rfl)

/-! ## Validator result lemmas -/

/-- The card-number validator either succeeds with the normalized input as
clean value, or fails with an empty clean value and a nonempty error. -/
theorem validate_card_number_spec (s : String) :
    validate_card_number s = (normalize_basic s, "")
    ∨ ((validate_card_number s).1 = "" ∧ (validate_card_number s).2 ≠ "") := by
  simp only [validate_card_number]
  split_ifs <;> first | exact Or.inl rfl | exact Or.inr ⟨rfl, by decide⟩

/-- The name validator either succeeds with the normalized input as clean
value, or fails with an empty clean value and a nonempty error. -/
theorem validate_name_on_card_spec (s : String) :
    validate_name_on_card s = (normalize_basic s, "")
    ∨ ((validate_name_on_card s).1 = "" ∧ (validate_name_on_card s).2 ≠ "") := by
  simp only [validate_name_on_card]
  split_ifs <;> first | exact Or.inl rfl | exact Or.inr ⟨rfl, by decide⟩

/-- The email validator either succeeds with the normalized input as clean
value, or fails with an empty clean value and a nonempty error. -/
theorem validate_billing_email_spec (s : String) :
    validate_billing_email s = (normalize_basic s, "")
    ∨ ((validate_billing_email s).1 = "" ∧ (validate_billing_email s).2 ≠ "") := by
  simp only [validate_billing_email]
  by_cases h1 : 254 < (normalize_basic s).data.length
  · rw [if_pos h1]
    exact Or.inr ⟨by decide, by decide⟩
  · simp only [if_neg h1]
    split
    · split_ifs <;> first | exact Or.inl rfl | simp
    · simp

/-- The CVV validator's clean value is empty on every input. -/
theorem validate_cvv_clean_empty (s : String) : (validate_cvv s).1 = "" := by
  unfold validate_cvv
  repeat' split
  all_goals rfl

/-- Whenever validate_exp_date returns normally, its clean value is empty and
its error message is nonempty: the success line of the source is unreachable
because the TypeError branch precedes it. -/
theorem validate_exp_date_ok_spec (s xc xe : String)
    (h : validate_exp_date s = Except.ok (xc, xe)) : xc = "" ∧ xe ≠ "" := by
  simp only [validate_exp_date] at h
  split at h
  · split at h
    · simp only [Except.ok.injEq, Prod.mk.injEq] at h
      obtain ⟨h1, h2⟩ := h
      subst h1; subst h2
      exact ⟨rfl, by decide⟩
    · split at h
      · exact Except.noConfusion h
      · split at h
        · simp only [Except.ok.injEq, Prod.mk.injEq] at h
          obtain ⟨h1, h2⟩ := h
          subst h1; subst h2
          exact ⟨rfl, by decide⟩
        · exact Except.noConfusion h
  · simp only [Except.ok.injEq, Prod.mk.injEq] at h
    obtain ⟨h1, h2⟩ := h
    subst h1; subst h2
    exact ⟨rfl, by decide⟩

/-- Validating the already-normalized input gives the same result. -/
theorem validate_card_number_norm (s : String) :
    validate_card_number (normalize_basic s) = validate_card_number s := by
  unfold validate_card_number
  rw [normalize_basic_idem]

/-- Validating the already-normalized input gives the same result. -/
theorem validate_name_on_card_norm (s : String) :
    validate_name_on_card (normalize_basic s) = validate_name_on_card s := by
  unfold validate_name_on_card
  rw [normalize_basic_idem]

/-- Validating the already-normalized input gives the same result. -/
theorem validate_billing_email_norm (s : String) :
    validate_billing_email (normalize_basic s) = validate_billing_email s := by
  unfold validate_billing_email
  rw [normalize_basic_idem]

/-- Accepted card numbers revalidate to the same clean value with no error. -/
theorem validate_card_number_idem (s : String)
    (h : (validate_card_number s).2 = "") :
    validate_card_number (validate_card_number s).1 = ((validate_card_number s).1, "") := by
  rcases validate_card_number_spec s with hs | ⟨_, h2⟩
  · rw [hs]
    show validate_card_number (normalize_basic s) = (normalize_basic s, "")
    rw [validate_card_number_norm, hs]
  · exact absurd h h2

/-- Accepted names revalidate to the same clean value with no error. -/
theorem validate_name_on_card_idem (s : String)
    (h : (validate_name_on_card s).2 = "") :
    validate_name_on_card (validate_name_on_card s).1
      = ((validate_name_on_card s).1, "") := by
  rcases validate_name_on_card_spec s with hs | ⟨_, h2⟩
  · rw [hs]
    show validate_name_on_card (normalize_basic s) = (normalize_basic s, "")
    rw [validate_name_on_card_norm, hs]
  · exact absurd h h2

/-- Accepted emails revalidate to the same clean value with no error. -/
theorem validate_billing_email_idem (s : String)
    (h : (validate_billing_email s).2 = "") :
    validate_billing_email (validate_billing_email s).1
      = ((validate_billing_email s).1, "") := by
  rcases validate_billing_email_spec s with hs | ⟨_, h2⟩
  · rw [hs]
    show validate_billing_email (normalize_basic s) = (normalize_basic s, "")
    rw [validate_billing_email_norm, hs]
  · exact absurd h h2

/-- Lookup distributes over append, preferring the left list. -/
theorem lookupStr_append (k : String) (l1 l2 : List (String × String)) :
    lookupStr k (l1 ++ l2)
      = match lookupStr k l1 with
        | some v => some v
        | none => lookupStr k l2 := by
  induction l1 with
  | nil => simp [lookupStr]
  | cons p rest ih =>
    obtain ⟨k2, v⟩ := p
    by_cases h : k = k2
    · simp [lookupStr, h]
    · simp [lookupStr, h, ih]

/-- Lookup of a different key in a conditional singleton block is none. -/
theorem lookupStr_if_single_ne (p : Prop) [Decidable p] (k k2 v : String)
    (hne : k2 ≠ k) : lookupStr k2 (if p then [(k, v)] else []) = none := by
  split
  · simp [lookupStr, hne]
  · rfl

/-- Lookup of the key of a conditional singleton block. -/
theorem lookupStr_if_single_eq (p : Prop) [Decidable p] (k v : String) :
    lookupStr k (if p then [(k, v)] else []) = if p then some v else none := by
  split
  · simp [lookupStr]
  · rfl

/-- Lookup of a different key in a negated conditional singleton block. -/
theorem lookupStr_if_single_ne2 (p : Prop) [Decidable p] (k k2 v : String)
    (hne : k2 ≠ k) : lookupStr k2 (if p then [] else [(k, v)]) = none := by
  split
  · rfl
  · simp [lookupStr, hne]

/-- Lookup of the key of a negated conditional singleton block. -/
theorem lookupStr_if_single_eq2 (p : Prop) [Decidable p] (k v : String) :
    lookupStr k (if p then [] else [(k, v)]) = if p then none else some v := by
  split
  · rfl
  · simp [lookupStr]

/-- A failing card-number validation returns an empty clean value. -/
theorem card_clean_empty_of_error (s : String)
    (h : (validate_card_number s).2 ≠ "") : (validate_card_number s).1 = "" := by
  rcases validate_card_number_spec s with hs | ⟨h1, _⟩
  · exact absurd (congrArg Prod.snd hs) h
  · exact h1

/-- A successful card-number validation returns the normalized input. -/
theorem card_clean_norm_of_ok (s : String)
    (h : (validate_card_number s).2 = "") :
    (validate_card_number s).1 = normalize_basic s := by
  rcases validate_card_number_spec s with hs | ⟨_, h2⟩
  · exact congrArg Prod.fst hs
  · exact absurd h h2

/-- A failing name validation returns an empty clean value. -/
theorem name_clean_empty_of_error (s : String)
    (h : (validate_name_on_card s).2 ≠ "") : (validate_name_on_card s).1 = "" := by
  rcases validate_name_on_card_spec s with hs | ⟨h1, _⟩
  · exact absurd (congrArg Prod.snd hs) h
  · exact h1

/-- A successful name validation returns the normalized input. -/
theorem name_clean_norm_of_ok (s : String)
    (h : (validate_name_on_card s).2 = "") :
    (validate_name_on_card s).1 = normalize_basic s := by
  rcases validate_name_on_card_spec s with hs | ⟨_, h2⟩
  · exact congrArg Prod.fst hs
  · exact absurd h h2

/-- A failing email validation returns an empty clean value. -/
theorem email_clean_empty_of_error (s : String)
    (h : (validate_billing_email s).2 ≠ "") : (validate_billing_email s).1 = "" := by
  rcases validate_billing_email_spec s with hs | ⟨h1, _⟩
  · exact absurd (congrArg Prod.snd hs) h
  · exact h1

/-- A successful email validation returns the normalized input. -/
theorem email_clean_norm_of_ok (s : String)
    (h : (validate_billing_email s).2 = "") :
    (validate_billing_email s).1 = normalize_basic s := by
  rcases validate_billing_email_spec s with hs | ⟨_, h2⟩
  · exact congrArg Prod.fst hs
  · exact absurd h h2

/-- C10: the clean mapping returned by validate_payment_form stores the card
value under the key card and never contains the key card_number, while the
checkout caller reads clean.get with the key card_number; hence the masked
card display computed by checkout is empty on every call where the form
returns. -/
theorem C10_masked_display_always_empty
    (cn ex cv nm em : String) (C E : List (String × String))
    (h : validate_payment_form cn ex cv nm em = Except.ok (C, E)) :
    lookupStr "card" C = some (validate_card_number cn).1
    ∧ lookupStr "card_number" C = none
    ∧ checkout_masked_display C = "" := by
  simp only [validate_payment_form] at h
  split at h
  · exact Except.noConfusion h
  · simp only [Except.ok.injEq, Prod.mk.injEq] at h
    obtain ⟨hC, hE⟩ := h
    subst hC
    refine ⟨?_, ?_, ?_⟩
    · simp [lookupStr]
    · simp [lookupStr]
    · simp [checkout_masked_display, lookupStr]

/-- C10 witness: a concrete call (every field invalid except the raising
expiry, which is malformed and therefore returns) produces a clean mapping
with a card key, no card_number key, and an empty masked display. -/
theorem C10_masked_display_always_empty_witness :
    lookupStr "card"
        [("card", ""), ("exp_date", ""), ("name_on_card", ""), ("billing_email", "")]
      = some (validate_card_number "").1
    ∧ lookupStr "card_number"
        [("card", ""), ("exp_date", ""), ("name_on_card", ""), ("billing_email", "")] = none
    ∧ checkout_masked_display
        [("card", ""), ("exp_date", ""), ("name_on_card", ""), ("billing_email", "")] = "" :=
  C10_masked_display_always_empty "" "bad" "" "" ""
    [("card", ""), ("exp_date", ""), ("name_on_card", ""), ("billing_email", "")]
    [("card_number", "card number length must be between 13 and 19"),
     ("exp_date", "format must be MM/YY"),
     ("cvv", "Must be 3 or 4 digits"),
     ("name_on_card", "Length must be between 2 and 60"),
     ("billing_email", "email must follow the following format juan@prueba.com")]
    rfl

/-- C9 counterexample: the CVV validator accepts "123" with an empty error,
but revalidating its clean output (the empty string, by design) reports a
length error, so idempotence fails for the CVV validator. -/
theorem C9_cvv_breaks_idempotence :
    validate_cvv "123" = ("", "")
    ∧ validate_cvv ((validate_cvv "123").1) = ("", "Must be 3 or 4 digits") :=
  ⟨rfl, rfl⟩

/-- C9 (amended): revalidating the clean output of an accepted input is
stable for the card-number, name and email validators; the expiry validator
never returns an accepted result (its error component is nonempty on every
normal return), so idempotence is moot for it; the CVV validator is the
exception refuted separately. -/
theorem C9_idempotence_except_cvv (s : String) :
    ((validate_card_number s).2 = "" →
      validate_card_number (validate_card_number s).1 = ((validate_card_number s).1, ""))
    ∧ ((validate_name_on_card s).2 = "" →
      validate_name_on_card (validate_name_on_card s).1 = ((validate_name_on_card s).1, ""))
    ∧ ((validate_billing_email s).2 = "" →
      validate_billing_email (validate_billing_email s).1 = ((validate_billing_email s).1, ""))
    ∧ (∀ xc xe, validate_exp_date s = Except.ok (xc, xe) → xe ≠ "") :=
  ⟨validate_card_number_idem s, validate_name_on_card_idem s,
   validate_billing_email_idem s,
   fun xc xe h => (validate_exp_date_ok_spec s xc xe h).2⟩

/-- C9 witness: the idempotence conjuncts instantiated on accepted inputs
and the expiry conjunct on a month-error return. -/
theorem C9_idempotence_except_cvv_witness :
    validate_card_number (validate_card_number "41111111111111").1
      = ((validate_card_number "41111111111111").1, "")
    ∧ validate_name_on_card (validate_name_on_card "John Doe").1
      = ((validate_name_on_card "John Doe").1, "")
    ∧ validate_billing_email (validate_billing_email "a@b.com").1
      = ((validate_billing_email "a@b.com").1, "")
    ∧ "Month must be beween 01 and 12" ≠ "" :=
  ⟨(C9_idempotence_except_cvv "41111111111111").1 (by decide),
   (C9_idempotence_except_cvv "John Doe").2.1 (by decide),
   (C9_idempotence_except_cvv "a@b.com").2.2.1 (by decide),
   (C9_idempotence_except_cvv "13/25").2.2.2 "" "Month must be beween 01 and 12" rfl⟩

/-- C7 counterexample: on a call where the card-number validator fails (and
the expiry is malformed, so the form returns), the clean mapping still
contains the key card, bound to the empty string, although the claim says a
field key appears in clean only when its validator succeeded. -/
theorem C7_clean_key_despite_error :
    validate_payment_form "x" "bad" "123" "John Doe" "a@b.c"
      = Except.ok
          ( [("card", ""), ("exp_date", ""), ("name_on_card", "John Doe"),
             ("billing_email", "a@b.c")],
            [("card_number", "Card number must contain digits only"),
             ("exp_date", "format must be MM/YY")] )
    ∧ (validate_card_number "x").2 = "Card number must contain digits only"
    ∧ lookupStr "card"
        [("card", ""), ("exp_date", ""), ("name_on_card", "John Doe"),
         ("billing_email", "a@b.c")] = some "" :=
  ⟨rfl, rfl, rfl⟩

/-- C7 (amended): per-validator, a nonempty error forces an empty clean value
and an empty error forces the normalized clean value (the CVV clean value is
always empty); and whenever validate_payment_form returns normally, a field
key appears in the errors mapping iff its validator reported an error, while
the clean mapping always carries the four keys card, exp_date, name_on_card
and billing_email bound to the validators' clean values (empty strings
included when a validator failed) and never a cvv key. -/
theorem C7_result_invariants
    (cn ex cv nm em xc xe : String) (C E : List (String × String))
    (hx : validate_exp_date ex = Except.ok (xc, xe))
    (h : validate_payment_form cn ex cv nm em = Except.ok (C, E)) :
    ((validate_card_number cn).2 ≠ "" → (validate_card_number cn).1 = "")
    ∧ ((validate_card_number cn).2 = "" →
        (validate_card_number cn).1 = normalize_basic cn)
    ∧ ((validate_name_on_card nm).2 ≠ "" → (validate_name_on_card nm).1 = "")
    ∧ ((validate_name_on_card nm).2 = "" →
        (validate_name_on_card nm).1 = normalize_basic nm)
    ∧ ((validate_billing_email em).2 ≠ "" → (validate_billing_email em).1 = "")
    ∧ ((validate_billing_email em).2 = "" →
        (validate_billing_email em).1 = normalize_basic em)
    ∧ (validate_cvv cv).1 = ""
    ∧ xc = ""
    ∧ lookupStr "card_number" E
        = (if (validate_card_number cn).2 ≠ "" then some (validate_card_number cn).2 else none)
    ∧ lookupStr "exp_date" E = (if xe ≠ "" then some xe else none)
    ∧ lookupStr "cvv" E
        = (if (validate_cvv cv).2 ≠ "" then some (validate_cvv cv).2 else none)
    ∧ lookupStr "name_on_card" E
        = (if (validate_name_on_card nm).2 ≠ "" then some (validate_name_on_card nm).2 else none)
    ∧ lookupStr "billing_email" E
        = (if (validate_billing_email em).2 ≠ "" then some (validate_billing_email em).2 else none)
    ∧ C = [("card", (validate_card_number cn).1), ("exp_date", xc),
           ("name_on_card", (validate_name_on_card nm).1),
           ("billing_email", (validate_billing_email em).1)]
    ∧ lookupStr "cvv" C = none := by
  simp only [validate_payment_form, hx] at h
  simp only [Except.ok.injEq, Prod.mk.injEq] at h
  obtain ⟨hC, hE⟩ := h
  subst hC
  subst hE
  refine ⟨card_clean_empty_of_error cn, card_clean_norm_of_ok cn,
    name_clean_empty_of_error nm, name_clean_norm_of_ok nm,
    email_clean_empty_of_error em, email_clean_norm_of_ok em,
    validate_cvv_clean_empty cv, (validate_exp_date_ok_spec ex xc xe hx).1,
    ?_, ?_, ?_, ?_, ?_, rfl, ?_⟩
  · by_cases hc : (validate_card_number cn).2 = "" <;>
      simp [hc, lookupStr_append, lookupStr_if_single_eq, lookupStr_if_single_ne, lookupStr_if_single_eq2, lookupStr_if_single_ne2, lookupStr]
  · by_cases hc : xe = "" <;>
      simp [hc, lookupStr_append, lookupStr_if_single_eq, lookupStr_if_single_ne, lookupStr_if_single_eq2, lookupStr_if_single_ne2, lookupStr]
  · by_cases hc : (validate_cvv cv).2 = "" <;>
      simp [hc, lookupStr_append, lookupStr_if_single_eq, lookupStr_if_single_ne, lookupStr_if_single_eq2, lookupStr_if_single_ne2, lookupStr]
  · by_cases hc : (validate_name_on_card nm).2 = "" <;>
      simp [hc, lookupStr_append, lookupStr_if_single_eq, lookupStr_if_single_ne, lookupStr_if_single_eq2, lookupStr_if_single_ne2, lookupStr]
  · by_cases hc : (validate_billing_email em).2 = "" <;>
      simp [hc, lookupStr_append, lookupStr_if_single_eq, lookupStr_if_single_ne, lookupStr_if_single_eq2, lookupStr_if_single_ne2, lookupStr]
  · simp [lookupStr]

/-- C7 witness: the amended invariants instantiated on two concrete calls,
one where the card number fails and one where it succeeds. -/
theorem C7_result_invariants_witness :
    (validate_card_number "x").1 = ""
    ∧ (validate_card_number "4111111111111111").1 = normalize_basic "4111111111111111"
    ∧ (validate_name_on_card "J").1 = ""
    ∧ (validate_name_on_card "John Doe").1 = normalize_basic "John Doe"
    ∧ (validate_billing_email "bad").1 = ""
    ∧ (validate_billing_email "a@b.c").1 = normalize_basic "a@b.c"
    ∧ (validate_cvv "123").1 = ""
    ∧ lookupStr "card_number"
        [("card_number", "Card number must contain digits only"),
         ("exp_date", "format must be MM/YY")]
      = some "Card number must contain digits only"
    ∧ lookupStr "exp_date"
        [("card_number", "Card number must contain digits only"),
         ("exp_date", "format must be MM/YY")]
      = some "format must be MM/YY"
    ∧ lookupStr "cvv"
        [("card_number", "Card number must contain digits only"),
         ("exp_date", "format must be MM/YY")] = none
    ∧ lookupStr "cvv"
        [("card", ""), ("exp_date", ""), ("name_on_card", "John Doe"),
         ("billing_email", "a@b.c")] = none := by
  obtain ⟨a1, a2, a3, a4, a5, a6, a7, a8, a9, a10, a11, a12, a13, a14, a15⟩ :=
    C7_result_invariants "x" "bad" "123" "John Doe" "a@b.c" "" "format must be MM/YY"
      [("card", ""), ("exp_date", ""), ("name_on_card", "John Doe"),
       ("billing_email", "a@b.c")]
      [("card_number", "Card number must contain digits only"),
       ("exp_date", "format must be MM/YY")]
      rfl rfl
  obtain ⟨b1, b2, b3, b4, b5, b6, b7, b8, b9, b10, b11, b12, b13, b14, b15⟩ :=
    C7_result_invariants "4111111111111111" "bad" "123" "J" "bad" "" "format must be MM/YY"
      [("card", "4111111111111111"), ("exp_date", ""), ("name_on_card", ""),
       ("billing_email", "")]
      [("exp_date", "format must be MM/YY"),
       ("name_on_card", "Length must be between 2 and 60"),
       ("billing_email", "email must follow the following format juan@prueba.com")]
      rfl rfl
  exact ⟨a1 (by decide), b2 (by decide), b3 (by decide), a4 (by decide),
    b5 (by decide), a6 (by decide), a7, a9, a10, a11, a15⟩

end EventHub

